import Mathlib

/-!
Formal model of the null-horizon financial OAuth connection lifecycle
(`apps/null-horizon/server`): the token cipher (`src/lib/encryption.ts`),
the connected-account and provider repositories
(`src/db/repositories/financial.ts` over the `financial` schema in
`schemas/auth.sql`), and the `FinancialOAuthService` connection-flow
controller (`src/services/oauth.ts`).

Conventions of the embedding:
* the cipher functions the source calls — `crypto.createCipherGCM` and
  `crypto.createDecipherGCM` — do not exist in `node:crypto` (the real
  API is `createCipheriv`/`createDecipheriv`), so every execution of
  `TokenEncryption.encrypt`/`decrypt` throws the corresponding
  `TypeError`; the embedding models exactly that, and the cipher's
  success paths are absent because they are unreachable in the program;
* randomness (state tokens, PKCE verifiers, fresh row ids), the
  `ENCRYPTION_KEY` environment value, `JSON.parse`, and network I/O
  (`fetch`) are passed in as explicit arguments or outcome oracles;
* fallible operations return `Except String`, mirroring thrown `Error`s.
-/

namespace Hyperbaric

/-! ### Hex decoding (`Buffer.from(key, "hex")`) -/

/-- Numeric value of a hex digit character, as read by `Buffer.from(s, "hex")`. -/
def hexVal (c : Char) : Nat :=
  if 48 ≤ c.toNat ∧ c.toNat ≤ 57 then c.toNat - 48
  else if 97 ≤ c.toNat ∧ c.toNat ≤ 102 then c.toNat - 87
  else 0

/-- Parse hex characters back to bytes (pairs of digits). -/
def hexToBytes : List Char → List Nat
  | c1 :: c2 :: rest => (hexVal c1 * 16 + hexVal c2) :: hexToBytes rest
  | _ => []

/-! ### TokenEncryption (`src/lib/encryption.ts`)

The source builds its cipher with `crypto.createCipherGCM(ALGORITHM, key,
iv)` and its decipher with `crypto.createDecipherGCM(...)` (lines 44 and
79). Neither function exists in `node:crypto` (the real API is
`createCipheriv`/`createDecipheriv`; the `...GCM` names exist only as
TypeScript interface names), and nothing in the repository shims them, so
at runtime the property access yields `undefined` and the call throws
`TypeError: crypto.createCipherGCM is not a function` (resp.
`createDecipherGCM`) inside the `try`, which each method re-wraps. The
success paths of `encrypt` and `decrypt` are therefore unreachable, and
the embedding reflects that: both functions error on every input that
passes their guards. -/

/-- The `TypeError` message thrown by calling the nonexistent
`crypto.createCipherGCM`. -/
def createCipherGCMError : String := "crypto.createCipherGCM is not a function"

/-- The `TypeError` message thrown by calling the nonexistent
`crypto.createDecipherGCM`. -/
def createDecipherGCMError : String := "crypto.createDecipherGCM is not a function"

/-- The serialized `EncryptedData` record (hex-string fields). Only ever
produced by the unreachable success path of `encrypt`; `decrypt` takes
one as input. -/
structure EncryptedData where
  encrypted : String
  iv : String
  tag : String
deriving DecidableEq, Repr

/-- `TokenEncryption.getEncryptionKey`: requires `ENCRYPTION_KEY` to be
present (`env` is the optional environment value) and exactly 64 hex
characters; returns the decoded 32-byte key buffer. -/
def getEncryptionKey (env : Option String) : Except String (List Nat) :=
  match env with
  | none => .error "ENCRYPTION_KEY environment variable is required"
  | some key =>
    if key.length ≠ 64 then
      .error "ENCRYPTION_KEY must be exactly 64 hex characters (32 bytes)"
    else
      .ok (hexToBytes key.data)

namespace TokenEncryption

/-- `TokenEncryption.encrypt`: rejects empty (falsy) plaintext; inside
the `try`, loads the key (whose errors the `catch` re-wraps as
`Encryption failed: ...`), draws a random IV, and then calls
`crypto.createCipherGCM` — which does not exist, so every execution that
reaches this point throws `Encryption failed:
crypto.createCipherGCM is not a function`. No input yields `.ok`. -/
def encrypt (env : Option String) (plaintext : String) :
    Except String EncryptedData :=
  if plaintext = "" then .error "Cannot encrypt empty or null data"
  else
    match getEncryptionKey env with
    | .error e => .error ("Encryption failed: " ++ e)
    | .ok _key => .error ("Encryption failed: " ++ createCipherGCMError)

/-- `TokenEncryption.decrypt`: rejects a structurally incomplete record
(any empty field is falsy in the source's guard); inside the `try`, loads
the key (errors re-wrapped as `Decryption failed: ...`) and then calls
`crypto.createDecipherGCM` — which does not exist, so every execution
that reaches this point throws `Decryption failed:
crypto.createDecipherGCM is not a function`. No input yields a
plaintext. -/
def decrypt (env : Option String) (d : EncryptedData) : Except String String :=
  if d.encrypted = "" ∨ d.iv = "" ∨ d.tag = "" then
    .error "Invalid encrypted data structure"
  else
    match getEncryptionKey env with
    | .error e => .error ("Decryption failed: " ++ e)
    | .ok _key => .error ("Decryption failed: " ++ createDecipherGCMError)

end TokenEncryption

/-- `JSON.stringify` of an `EncryptedData` record — the stored-blob
serialization. Only invoked on the unreachable success path of
`encrypt`. -/
def stringifyEncryptedData (d : EncryptedData) : String :=
  "\x7b\"encrypted\":\"" ++ d.encrypted ++ "\",\"iv\":\"" ++ d.iv ++
    "\",\"tag\":\"" ++ d.tag ++ "\"\x7d"

/-! ### Token-pair helpers (`encryptTokens` / `decryptTokens`)

`encryptTokens` composes `JSON.stringify` with `encrypt` directly and so
throws on every call (the access-token encryption errors first).
Decryption of one stored blob (`JSON.parse` followed by
`TokenEncryption.decrypt`) is kept abstract in the service-layer
signatures as `decOne : String → Except String String` so theorems can
quantify over every decryption outcome; the program's actual instance is
`decOneOf`, which errors on every blob because `decrypt` does. -/

/-- `TokenEncryption.encryptTokens`: encrypts the access token (which
always throws, see `encrypt`) and, on the unreachable success path, the
refresh token when it is truthy; an absent or empty refresh token would
be stored as `null`. Errors from `encrypt` propagate uncaught. -/
def TokenEncryption.encryptTokens (env : Option String)
    (accessToken : String) (refreshToken : Option String) :
    Except String (String × Option String) :=
  match TokenEncryption.encrypt env accessToken with
  | .error e => .error e
  | .ok dA =>
    match refreshToken with
    | some r =>
      if r = "" then .ok (stringifyEncryptedData dA, none)
      else
        match TokenEncryption.encrypt env r with
        | .error e => .error e
        | .ok dR => .ok (stringifyEncryptedData dA, some (stringifyEncryptedData dR))
    | none => .ok (stringifyEncryptedData dA, none)

/-- `TokenEncryption.decryptTokens`: decrypts the access blob, then the
refresh blob when it is truthy (non-null and non-empty); any underlying
failure propagates as an error (the source's `catch` re-wrap). -/
def TokenEncryption.decryptTokens (decOne : String → Except String String)
    (encryptedAccessToken : String) (encryptedRefreshToken : Option String) :
    Except String (String × Option String) :=
  match decOne encryptedAccessToken with
  | .error e => .error ("Token decryption failed: " ++ e)
  | .ok accessToken =>
    match encryptedRefreshToken with
    | some r =>
      if r = "" then .ok (accessToken, none)
      else
        match decOne r with
        | .error e => .error ("Token decryption failed: " ++ e)
        | .ok refreshToken => .ok (accessToken, some refreshToken)
    | none => .ok (accessToken, none)

/-- The program's single-blob decryption: `JSON.parse` (abstracted as
`parse`, whose errors propagate into the same `catch`) followed by
`TokenEncryption.decrypt`, which errors on every input because
`crypto.createDecipherGCM` does not exist. -/
def decOneOf (env : Option String) (parse : String → Except String EncryptedData)
    (blob : String) : Except String String :=
  match parse blob with
  | .error e => .error e
  | .ok d => TokenEncryption.decrypt env d

/-! ### Relational model (`schemas/auth.sql`, `financial` schema)

Rows of `financial.providers` and `financial.connected_accounts`.
Database-managed timestamp columns (`created_at`, `updated_at` and their
triggers) and the JSONB `oauth_config` column are elided; timestamps that
the application writes are modelled as `Nat` milliseconds. -/

/-- A row of `financial.providers`. -/
structure FinancialProvider where
  id : String
  name : String
  display_name : String
  is_active : Bool
deriving DecidableEq, Repr

/-- A row of `financial.connected_accounts`. -/
structure ConnectedAccount where
  id : String
  user_id : String
  provider_id : String
  encrypted_access_token : String
  encrypted_refresh_token : Option String
  token_expires_at : Option Nat
  refresh_token_expires_at : Option Nat
  external_account_id : String
  account_name : Option String
  account_type : Option String
  is_active : Bool
  last_sync_at : Option Nat
  sync_status : Option String
  sync_error : Option String
deriving DecidableEq, Repr

/-- The durable store: both `financial` tables. -/
structure DB where
  providers : List FinancialProvider
  accounts : List ConnectedAccount
deriving DecidableEq, Repr

/-! ### FinancialProviderRepository (`db/repositories/financial.ts`) -/

namespace FinancialProviderRepository

/-- `findById`: by id, restricted to active providers. -/
def findById (db : DB) (id : String) : Option FinancialProvider :=
  db.providers.find? (fun p => p.id == id && p.is_active)

/-- `findByName`: by unique name, restricted to active providers. -/
def findByName (db : DB) (name : String) : Option FinancialProvider :=
  db.providers.find? (fun p => p.name == name && p.is_active)

end FinancialProviderRepository

/-! ### FinancialConnectedAccountRepository (`db/repositories/financial.ts`) -/

/-- `CreateConnectedAccountData`. -/
structure CreateConnectedAccountData where
  userId : String
  providerId : String
  accessToken : String
  refreshToken : Option String
  tokenExpiresAt : Option Nat
  refreshTokenExpiresAt : Option Nat
  externalAccountId : String
  accountName : Option String
  accountType : Option String
deriving Repr

/-- `UpdateConnectedAccountData`: every field optional; `none` means the
key is absent from the update and the column is left unchanged. -/
structure UpdateConnectedAccountData where
  accessToken : Option String := none
  refreshToken : Option String := none
  tokenExpiresAt : Option Nat := none
  refreshTokenExpiresAt : Option Nat := none
  accountName : Option String := none
  accountType : Option String := none
  isActive : Option Bool := none
  lastSyncAt : Option Nat := none
  syncStatus : Option String := none
  syncError : Option String := none
deriving Repr

/-- An account row with its tokens decrypted
(`ConnectedAccountWithTokens`). -/
structure ConnectedAccountWithTokens where
  account : ConnectedAccount
  accessToken : String
  refreshToken : Option String
deriving Repr

namespace FinancialConnectedAccountRepository

/-- `findByIdAndUserId`: ownership-scoped lookup. -/
def findByIdAndUserId (db : DB) (id userId : String) : Option ConnectedAccount :=
  db.accounts.find? (fun a => a.id == id && a.user_id == userId)

/-- `findByExternalId`: lookup by `(provider_id, external_account_id)`.
(Defined in the source but called by nothing.) -/
def findByExternalId (db : DB) (providerId externalAccountId : String) :
    Option ConnectedAccount :=
  db.accounts.find? (fun a =>
    a.provider_id == providerId && a.external_account_id == externalAccountId)

/-- Whether inserting `d` would violate the schema constraint
`UNIQUE(user_id, provider_id, external_account_id)`. -/
def uniqueViolation (db : DB) (d : CreateConnectedAccountData) : Bool :=
  db.accounts.any (fun a =>
    a.user_id == d.userId && a.provider_id == d.providerId &&
      a.external_account_id == d.externalAccountId)

/-- `create`: calls `encryptTokens` first — whose error (the cipher
`TypeError`, see `TokenEncryption.encrypt`) propagates before any
database access — and then runs a plain `INSERT` with `is_active = true`
and `sync_status = 'pending'`. The insert is subject to the schema's
unique constraint: a conflicting row makes the statement throw (modelled
as `Except.error`), exactly as PostgreSQL raises `unique_violation` — the
source performs no upsert and never consults `findByExternalId`. `newId`
is the generated row id. -/
def create (env : Option String) (newId : String) (db : DB)
    (d : CreateConnectedAccountData) : Except String (ConnectedAccount × DB) :=
  match TokenEncryption.encryptTokens env d.accessToken d.refreshToken with
  | .error e => .error e
  | .ok encPair =>
    if uniqueViolation db d then
      .error "duplicate key value violates unique constraint"
    else
      let row : ConnectedAccount :=
        { id := newId
          user_id := d.userId
          provider_id := d.providerId
          encrypted_access_token := encPair.1
          encrypted_refresh_token := encPair.2
          token_expires_at := d.tokenExpiresAt
          refresh_token_expires_at := d.refreshTokenExpiresAt
          external_account_id := d.externalAccountId
          account_name := d.accountName
          account_type := d.accountType
          is_active := true
          last_sync_at := none
          sync_status := some "pending"
          sync_error := none }
      .ok (row, { db with accounts := db.accounts ++ [row] })

/-- The row transformation of `update`/`updateByIdAndUserId` once the
`.set` object is known: plain columns are overwritten when their key is
present, and the two encrypted columns are overwritten when the
encryption branch ran (`encPair` present). -/
def applyAccountUpdate (encPair : Option (String × Option String))
    (d : UpdateConnectedAccountData) (a : ConnectedAccount) : ConnectedAccount :=
  let base : ConnectedAccount :=
    { a with
      token_expires_at :=
        if d.tokenExpiresAt.isSome then d.tokenExpiresAt else a.token_expires_at
      refresh_token_expires_at :=
        if d.refreshTokenExpiresAt.isSome then d.refreshTokenExpiresAt
        else a.refresh_token_expires_at
      account_name := if d.accountName.isSome then d.accountName else a.account_name
      account_type := if d.accountType.isSome then d.accountType else a.account_type
      is_active := d.isActive.getD a.is_active
      last_sync_at := if d.lastSyncAt.isSome then d.lastSyncAt else a.last_sync_at
      sync_status := if d.syncStatus.isSome then d.syncStatus else a.sync_status
      sync_error := if d.syncError.isSome then d.syncError else a.sync_error }
  match encPair with
  | some p =>
    { base with
      encrypted_access_token := p.1
      encrypted_refresh_token := p.2 }
  | none => base

/-- The `UPDATE ... WHERE id = ?` statement of `update`, given the
already-computed encrypted columns (if any): updates the row with the
given id (returning it), leaving the store unchanged when no row
matches. -/
def runUpdate (encPair : Option (String × Option String)) (db : DB) (id : String)
    (d : UpdateConnectedAccountData) : Option ConnectedAccount × DB :=
  match db.accounts.find? (fun a => a.id == id) with
  | none => (none, db)
  | some a =>
    (some (applyAccountUpdate encPair d a),
      { db with
        accounts := db.accounts.map (fun x =>
          if x.id == id then applyAccountUpdate encPair d x else x) })

/-- `update`: when `accessToken` is truthy (present and non-empty), the
token pair is re-encrypted via `encryptTokens` *before* the SQL `UPDATE`
runs — and since `encryptTokens` throws on every call, the statement is
never reached in that case and the error propagates. With a falsy
`accessToken` the plain update runs. -/
def update (env : Option String) (db : DB) (id : String)
    (d : UpdateConnectedAccountData) :
    Except String (Option ConnectedAccount × DB) :=
  match d.accessToken with
  | some tok =>
    if tok = "" then .ok (runUpdate none db id d)
    else
      match TokenEncryption.encryptTokens env tok d.refreshToken with
      | .error e => .error e
      | .ok p => .ok (runUpdate (some p) db id d)
  | none => .ok (runUpdate none db id d)

/-- The `UPDATE ... WHERE id = ? AND user_id = ?` statement of
`updateByIdAndUserId`. -/
def runUpdateScoped (encPair : Option (String × Option String)) (db : DB)
    (id userId : String) (d : UpdateConnectedAccountData) :
    Option ConnectedAccount × DB :=
  match db.accounts.find? (fun a => a.id == id && a.user_id == userId) with
  | none => (none, db)
  | some a =>
    (some (applyAccountUpdate encPair d a),
      { db with
        accounts := db.accounts.map (fun x =>
          if x.id == id && x.user_id == userId then applyAccountUpdate encPair d x
          else x) })

/-- `updateByIdAndUserId`: like `update`, additionally scoped to the
owning user; the encryption branch likewise throws before the statement
when `accessToken` is truthy. -/
def updateByIdAndUserId (env : Option String) (db : DB) (id userId : String)
    (d : UpdateConnectedAccountData) :
    Except String (Option ConnectedAccount × DB) :=
  match d.accessToken with
  | some tok =>
    if tok = "" then .ok (runUpdateScoped none db id userId d)
    else
      match TokenEncryption.encryptTokens env tok d.refreshToken with
      | .error e => .error e
      | .ok p => .ok (runUpdateScoped (some p) db id userId d)
  | none => .ok (runUpdateScoped none db id userId d)

/-- `deactivateByIdAndUserId`: sets `is_active = false` and
`sync_status = 'disconnected'` on the ownership-scoped row; returns
whether any row was updated. -/
def deactivateByIdAndUserId (db : DB) (id userId : String) : Bool × DB :=
  (db.accounts.any (fun a => a.id == id && a.user_id == userId),
    { db with
      accounts := db.accounts.map (fun a =>
        if a.id == id && a.user_id == userId then
          { a with is_active := false, sync_status := some "disconnected" }
        else a) })

/-- `updateSyncStatus`: sets the status, the error text (`null` when the
argument is absent or empty, via `error || null`) and stamps
`last_sync_at` with the current time. -/
def updateSyncStatus (db : DB) (now : Nat) (id status : String)
    (err : Option String) : DB :=
  { db with
    accounts := db.accounts.map (fun a =>
      if a.id == id then
        { a with
          sync_status := some status
          sync_error :=
            match err with
            | some e => if e = "" then none else some e
            | none => none
          last_sync_at := some now }
      else a) }

/-- `getAccountWithTokens`: ownership-scoped lookup followed by token
decryption; a decryption failure is re-thrown with the account id. -/
def getAccountWithTokens (decOne : String → Except String String) (db : DB)
    (id userId : String) : Except String (Option ConnectedAccountWithTokens) :=
  match findByIdAndUserId db id userId with
  | none => .ok none
  | some a =>
    match TokenEncryption.decryptTokens decOne a.encrypted_access_token
        a.encrypted_refresh_token with
    | .error e => .error ("Failed to decrypt tokens for account " ++ id ++ ": " ++ e)
    | .ok pair => .ok (some { account := a, accessToken := pair.1, refreshToken := pair.2 })

end FinancialConnectedAccountRepository

/-! ### FinancialOAuthService (`src/services/oauth.ts`)

Network calls (`fetch`) are modelled by outcome oracles: a request either
rejects (network error / timeout), returns a non-ok HTTP response, or
returns parsed JSON. Randomness (`crypto.randomBytes` for state and PKCE
verifier, the SHA-256 challenge, generated row ids) and the clock
(`Date.now()`, in milliseconds) are explicit arguments. -/

/-- An entry of the in-memory provider map, keyed by name
(`initializeProviders`). -/
structure OAuthProvider where
  name : String
  displayName : String
  authorizationUrl : String
  tokenUrl : String
  revokeUrl : Option String
  apiBaseUrl : String
  scopes : List String
  clientId : String
  clientSecret : String
deriving DecidableEq, Repr

/-- The `OAuthState` value kept in `pendingStates` for one in-flight
authorization. -/
structure OAuthState where
  userId : String
  providerId : String
  state : String
  codeVerifier : String
  redirectUri : String
deriving DecidableEq, Repr

/-- An entry of the `pendingStates` map together with the deadline of the
`setTimeout` deletion scheduled when it was stored
(creation time + 10 minutes). -/
structure PendingEntry where
  key : String
  value : OAuthState
  expiresAt : Nat
deriving DecidableEq, Repr

/-- The 10-minute expiry window for pending states, in milliseconds. -/
def stateTtlMs : Nat := 10 * 60 * 1000

/-- The mutable state of the service: the env-configured provider map,
the in-memory `pendingStates` map, and the durable store the
repositories act on. -/
structure ServiceState where
  providers : List OAuthProvider
  pendingStates : List PendingEntry
  db : DB
deriving DecidableEq, Repr

/-- Node's event loop runs every `setTimeout` callback whose deadline has
passed before a request handler observed at time `now` runs; each such
callback deletes its pending entry. -/
def firePendingTimers (now : Nat) (ps : List PendingEntry) : List PendingEntry :=
  ps.filter (fun e => now < e.expiresAt)

/-- Outcome of a raw `fetch` whose response object is only inspected for
rejection (used by the revoke call, which reads nothing of the response). -/
inductive FetchOutcome where
  | throws (msg : String)
  | response (ok : Bool) (status : Nat) (body : String)
deriving DecidableEq, Repr

/-- The parsed JSON body of a token-endpoint response (`TokenResponse`). -/
structure TokenResponse where
  access_token : String
  refresh_token : Option String
  expires_in : Option Nat
deriving DecidableEq, Repr

/-- Outcome of a `fetch` against a token endpoint: rejection, a non-ok
HTTP response with its body text, or a parsed `TokenResponse`. -/
inductive ExchangeOutcome where
  | throws (msg : String)
  | httpError (status : Nat) (body : String)
  | success (tokens : TokenResponse)
deriving DecidableEq, Repr

/-- Outcome of a provider API `fetch` with parsed JSON payload `α`. -/
inductive ApiOutcome (α : Type) where
  | throws (msg : String)
  | httpError (status : Nat)
  | success (data : α)
deriving DecidableEq, Repr

/-- JavaScript string truthiness fallback `a || b` for an optional `a`. -/
def strOrElse : Option String → String → String
  | some s, d => if s = "" then d else s
  | none, d => d

/-- `expires_in ? new Date(Date.now() + expires_in * 1000) : undefined`
(note `0` is falsy). -/
def tokenExpiry (now : Nat) (expiresIn : Option Nat) : Option Nat :=
  match expiresIn with
  | some ei => if ei = 0 then none else some (now + ei * 1000)
  | none => none

/-- The fields normalized out of a provider's account-info response
(`AccountInfo`). -/
structure AccountInfo where
  id : String
  name : String
  type : Option String
deriving DecidableEq, Repr

/-- Relevant fields of the Coinbase `/user` payload. -/
structure CoinbaseUser where
  id : String
  name : Option String
  username : Option String
deriving DecidableEq, Repr

/-- Relevant fields of one element of the Schwab `/accounts` payload. -/
structure SchwabAccount where
  accountNumber : Option String
  hashValue : Option String
  acctType : Option String
deriving DecidableEq, Repr

namespace FinancialOAuthService

/-- `exchangeCodeForTokens`: POST to the token endpoint; a non-ok
response throws `Token exchange failed` with status and body; a rejected
fetch propagates. -/
def exchangeCodeForTokens (outcome : ExchangeOutcome) : Except String TokenResponse :=
  match outcome with
  | .throws msg => .error msg
  | .httpError status body =>
    .error ("Token exchange failed: " ++ toString status ++ " " ++ body)
  | .success tokens => .ok tokens

/-- `getCoinbaseAccountInfo`: GET `/user`; non-ok throws; otherwise
normalizes to `{id, name: user.name || user.username || 'Coinbase
Account', type: 'crypto'}`. -/
def getCoinbaseAccountInfo (outcome : ApiOutcome CoinbaseUser) :
    Except String AccountInfo :=
  match outcome with
  | .throws msg => .error msg
  | .httpError status => .error ("Failed to get Coinbase user info: " ++ toString status)
  | .success user =>
    .ok { id := user.id
          name := strOrElse user.name (strOrElse user.username "Coinbase Account")
          type := some "crypto" }

/-- `getSchwabAccountInfo`: GET `/accounts`; non-ok throws; otherwise
takes the first account of the array (`data[0] || {}`) and normalizes it.
A missing `accountNumber`/`hashValue` (an `undefined` id in the source)
is modelled as `""`. -/
def getSchwabAccountInfo (outcome : ApiOutcome (List SchwabAccount)) :
    Except String AccountInfo :=
  match outcome with
  | .throws msg => .error msg
  | .httpError status => .error ("Failed to get Schwab account info: " ++ toString status)
  | .success data =>
    let account := data.headD { accountNumber := none, hashValue := none, acctType := none }
    .ok { id := strOrElse account.accountNumber (strOrElse account.hashValue "")
          name := "Schwab " ++ strOrElse account.acctType "Account"
          type := some (strOrElse account.acctType "investment") }

/-- The oracle bundle for one `handleCallback` run: the token-exchange
outcome, the two provider-specific account-info outcomes, the
`ENCRYPTION_KEY` environment value consumed by the repository `create`'s
encryption, and the generated row id. -/
structure CallbackOracles where
  exchange : ExchangeOutcome
  coinbaseUser : ApiOutcome CoinbaseUser
  schwabAccounts : ApiOutcome (List SchwabAccount)
  encryptionKey : Option String
  newId : String

/-- `getAccountInfo`: dispatches on the provider name; unknown providers
throw. -/
def getAccountInfo (o : CallbackOracles) (provider : OAuthProvider) :
    Except String AccountInfo :=
  if provider.name = "coinbase" then getCoinbaseAccountInfo o.coinbaseUser
  else if provider.name = "schwab" then getSchwabAccountInfo o.schwabAccounts
  else .error ("Account info not implemented for provider: " ++ provider.name)

/-- The structured result of `handleCallback`. -/
structure CallbackResult where
  success : Bool
  accountId : Option String
  error : Option String
deriving DecidableEq, Repr

/-- The `{ success: false, error }` result. -/
def cbFailure (e : String) : CallbackResult :=
  { success := false, accountId := none, error := some e }

/-- `generateAuthUrl`: looks up the configured provider (throwing if
absent) and its database row (throwing if absent), stores an `OAuthState`
under the fresh random `state` with a 10-minute deletion timer, and
returns the authorization URL (query-string percent-encoding elided) and
the state. `state`, `codeVerifier` and `codeChallenge` are the outputs of
`crypto.randomBytes`/`generatePKCE`, passed in as oracle arguments. -/
def generateAuthUrl (now : Nat) (state codeVerifier codeChallenge : String)
    (userId providerName redirectUri : String) (s : ServiceState) :
    Except String ((String × String) × ServiceState) :=
  match s.providers.find? (fun p => p.name == providerName) with
  | none => .error ("Provider " ++ providerName ++ " not found or not configured")
  | some provider =>
    match FinancialProviderRepository.findByName s.db providerName with
    | none => .error ("Provider " ++ providerName ++ " not found in database")
    | some dbProvider =>
      let oauthState : OAuthState :=
        { userId := userId
          providerId := dbProvider.id
          state := state
          codeVerifier := codeVerifier
          redirectUri := redirectUri }
      let pending :=
        (firePendingTimers now s.pendingStates).filter (fun e => !(e.key == state)) ++
          [{ key := state, value := oauthState, expiresAt := now + stateTtlMs }]
      let query := String.intercalate "&"
        [ "client_id=" ++ provider.clientId
        , "redirect_uri=" ++ redirectUri
        , "scope=" ++ String.intercalate " " provider.scopes
        , "state=" ++ state
        , "response_type=code"
        , "code_challenge=" ++ codeChallenge
        , "code_challenge_method=S256" ]
      .ok ((provider.authorizationUrl ++ "?" ++ query, state),
        { s with pendingStates := pending })

/-- The part of `handleCallback` after the state has been consumed
(deleted from `pendingStates`); it touches nothing but the durable store.
Every internal throw is caught by the source's `try`/`catch` and turned
into a `{ success: false, error }` result. -/
def handleCallbackAfterConsume (o : CallbackOracles) (now : Nat)
    (receivedRedirectUri : String) (oauthState : OAuthState) (s : ServiceState) :
    CallbackResult × ServiceState :=
  if oauthState.redirectUri ≠ receivedRedirectUri then
    (cbFailure "Redirect URI mismatch", s)
  else
    match FinancialProviderRepository.findById s.db oauthState.providerId with
    | none => (cbFailure "Provider not found", s)
    | some dbProvider =>
      match s.providers.find? (fun p => p.name == dbProvider.name) with
      | none => (cbFailure "Provider configuration not found", s)
      | some provider =>
        match exchangeCodeForTokens o.exchange with
        | .error e => (cbFailure e, s)
        | .ok tokenResponse =>
          match getAccountInfo o provider with
          | .error e => (cbFailure e, s)
          | .ok accountInfo =>
            match FinancialConnectedAccountRepository.create o.encryptionKey o.newId s.db
                { userId := oauthState.userId
                  providerId := oauthState.providerId
                  accessToken := tokenResponse.access_token
                  refreshToken := tokenResponse.refresh_token
                  tokenExpiresAt := tokenExpiry now tokenResponse.expires_in
                  refreshTokenExpiresAt := none
                  externalAccountId := accountInfo.id
                  accountName := some accountInfo.name
                  accountType := accountInfo.type } with
            | .error e => (cbFailure e, s)
            | .ok result =>
              ({ success := true, accountId := some result.1.id, error := none },
                { s with db := result.2 })

/-- `handleCallback`: validates the state against `pendingStates`
(failing with `Invalid or expired state parameter` when absent), deletes
the consumed entry, and continues with `handleCallbackAfterConsume`.
`code` does not influence the modelled control flow (the exchange outcome
oracle stands for the provider's response to it). -/
def handleCallback (o : CallbackOracles) (now : Nat)
    (code state receivedRedirectUri : String) (s : ServiceState) :
    CallbackResult × ServiceState :=
  let pending := firePendingTimers now s.pendingStates
  match pending.find? (fun e => e.key == state) with
  | none =>
    (cbFailure "Invalid or expired state parameter", { s with pendingStates := pending })
  | some entry =>
    handleCallbackAfterConsume o now receivedRedirectUri entry.value
      { s with pendingStates := pending.filter (fun e => !(e.key == state)) }

/-- `refreshToken`: loads the account with decrypted tokens (scoped to
the owner); returns `false` without a network call when the account or
its refresh token is missing, or when provider lookups fail; otherwise
POSTs to the token endpoint (recorded in the returned trace of fetched
URLs), marking sync status `error` and returning `false` on a non-ok
response or a throw. On a successful exchange it stores the rotated
tokens via the repository `update` — whose encryption throws, landing in
this method's `catch` (sync status `error`, `false`); the
sync-status-`success` continuation is unreachable in the program but kept
for the hypothetical `.ok`. -/
def refreshToken (decOne : String → Except String String)
    (env : Option String) (refreshFetch : ExchangeOutcome) (now : Nat)
    (accountId userId : String) (s : ServiceState) : Bool × DB × List String :=
  match FinancialConnectedAccountRepository.getAccountWithTokens decOne s.db
      accountId userId with
  | .error e =>
    -- `catch`: mark the account errored with the thrown message.
    (false,
      FinancialConnectedAccountRepository.updateSyncStatus s.db now accountId "error"
        (some e), [])
  | .ok none => (false, s.db, [])
  | .ok (some awt) =>
    match awt.refreshToken with
    | none => (false, s.db, [])
    | some currentRefresh =>
      if currentRefresh = "" then (false, s.db, [])
      else
        match FinancialProviderRepository.findById s.db awt.account.provider_id with
        | none => (false, s.db, [])
        | some dbProvider =>
          match s.providers.find? (fun p => p.name == dbProvider.name) with
          | none => (false, s.db, [])
          | some provider =>
            match refreshFetch with
            | .throws msg =>
              (false,
                FinancialConnectedAccountRepository.updateSyncStatus s.db now
                  accountId "error" (some msg), [provider.tokenUrl])
            | .httpError _ _ =>
              (false,
                FinancialConnectedAccountRepository.updateSyncStatus s.db now
                  accountId "error" (some "Token refresh failed"), [provider.tokenUrl])
            | .success tokenResponse =>
              match FinancialConnectedAccountRepository.update env s.db accountId
                  { accessToken := some tokenResponse.access_token
                    refreshToken :=
                      some (strOrElse tokenResponse.refresh_token currentRefresh)
                    tokenExpiresAt := tokenExpiry now tokenResponse.expires_in } with
              | .error e =>
                -- `catch`: the repository update threw (encryption).
                (false,
                  FinancialConnectedAccountRepository.updateSyncStatus s.db now
                    accountId "error" (some e), [provider.tokenUrl])
              | .ok res =>
                let db2 := FinancialConnectedAccountRepository.updateSyncStatus
                  res.2 now accountId "success" none
                (true, db2, [provider.tokenUrl])

/-- `revokeAccess`: loads the account with decrypted tokens (scoped to
the owner); returns `false` when the account or its provider row is
missing (the latter without deactivating); deactivates and returns `true`
when no truthy revoke URL is configured; otherwise POSTs the token to the
revoke URL (recorded in the returned trace of fetched URLs) and
deactivates the account regardless of the response, returning `true`
whenever the fetch did not throw — the response object is never
inspected. A throw anywhere — in the program always already at token
decryption, since `decrypt` errors on every blob — is caught, the account
is deactivated, and `false` is returned. -/
def revokeAccess (decOne : String → Except String String)
    (revokeFetch : FetchOutcome) (accountId userId : String) (s : ServiceState) :
    Bool × DB × List String :=
  match FinancialConnectedAccountRepository.getAccountWithTokens decOne s.db
      accountId userId with
  | .error _ =>
    -- `catch`: still deactivate the account even if decryption failed.
    (false, (FinancialConnectedAccountRepository.deactivateByIdAndUserId s.db
      accountId userId).2, [])
  | .ok none => (false, s.db, [])
  | .ok (some awt) =>
    match FinancialProviderRepository.findById s.db awt.account.provider_id with
    | none => (false, s.db, [])
    | some dbProvider =>
      let cfg := s.providers.find? (fun p => p.name == dbProvider.name)
      match cfg with
      | none =>
        (true, (FinancialConnectedAccountRepository.deactivateByIdAndUserId s.db
          accountId userId).2, [])
      | some provider =>
        match provider.revokeUrl with
        | none =>
          (true, (FinancialConnectedAccountRepository.deactivateByIdAndUserId s.db
            accountId userId).2, [])
        | some revokeUrl =>
          if revokeUrl = "" then
            (true, (FinancialConnectedAccountRepository.deactivateByIdAndUserId s.db
              accountId userId).2, [])
          else
            match revokeFetch with
            | .throws _ =>
              -- `catch`: still deactivate the account even if revoke fails.
              (false, (FinancialConnectedAccountRepository.deactivateByIdAndUserId
                s.db accountId userId).2, [revokeUrl])
            | .response _ _ _ =>
              -- Deactivate regardless of the revoke response; the
              -- response status is never read, so any completed request
              -- yields `true`.
              (true, (FinancialConnectedAccountRepository.deactivateByIdAndUserId
                s.db accountId userId).2, [revokeUrl])

end FinancialOAuthService

/-! ### Spec-side notions -/

/-- Whether the remote revoke call itself succeeded, in the spec's sense:
a completed HTTP response counts as a success only when it is a success
(2xx) response, and a rejected fetch is not a success. -/
def remoteRevokeSucceeded : FetchOutcome → Bool
  | .response ok _ _ => ok
  | .throws _ => false


/-! ### Concrete fixtures -/

/-- A valid 64-hex-character key (all zeros), as `ENCRYPTION_KEY`. -/
def keySample : String :=
  "0000000000000000000000000000000000000000000000000000000000000000"

/-- A `JSON.parse` oracle that succeeds, yielding a structurally complete
record (worst case for the claims: even then `decrypt` throws). -/
def parseSample : String → Except String EncryptedData :=
  fun blob => .ok { encrypted := blob, iv := "00", tag := "00" }

/-- The program's actual single-blob decryption at the sample key and
parse. -/
def decReal : String → Except String String := decOneOf (some keySample) parseSample

/-- The Coinbase entry of the configured provider map. -/
def coinbaseCfg : OAuthProvider :=
  { name := "coinbase"
    displayName := "Coinbase"
    authorizationUrl := "https://www.coinbase.com/oauth/authorize"
    tokenUrl := "https://api.coinbase.com/oauth/token"
    revokeUrl := some "https://api.coinbase.com/oauth/revoke"
    apiBaseUrl := "https://api.coinbase.com/v2"
    scopes := ["wallet:user:read", "wallet:accounts:read", "wallet:transactions:read"]
    clientId := "cid"
    clientSecret := "csecret" }

/-- An active `financial.providers` row for Coinbase. -/
def coinbaseRow : FinancialProvider :=
  { id := "p1", name := "coinbase", display_name := "Coinbase", is_active := true }

/-- A previously connected, deactivated account of user `u1` for external
account `ext1` at provider `p1`. -/
def inactiveAccount : ConnectedAccount :=
  { id := "a0"
    user_id := "u1"
    provider_id := "p1"
    encrypted_access_token := "blobA"
    encrypted_refresh_token := none
    token_expires_at := none
    refresh_token_expires_at := none
    external_account_id := "ext1"
    account_name := some "Alice"
    account_type := some "crypto"
    is_active := false
    last_sync_at := none
    sync_status := some "disconnected"
    sync_error := none }

/-- A service state in which `u1` has begun a reconnect of the same
external account: one pending authorization under state `st1`. -/
def reconnectState : ServiceState :=
  { providers := [coinbaseCfg]
    pendingStates :=
      [{ key := "st1"
         value :=
           { userId := "u1", providerId := "p1", state := "st1",
             codeVerifier := "ver", redirectUri := "https://app/cb" }
         expiresAt := stateTtlMs }]
    db := { providers := [coinbaseRow], accounts := [inactiveAccount] } }

/-- Callback oracles for the reconnect: the provider exchanges the code
and reports the same external account id `ext1`; a valid encryption key
is configured. -/
def reconnectOracles : FinancialOAuthService.CallbackOracles :=
  { exchange := .success
      { access_token := "tokA2", refresh_token := some "tokR2", expires_in := some 3600 }
    coinbaseUser := .success { id := "ext1", name := some "Alice", username := none }
    schwabAccounts := .httpError 500
    encryptionKey := some keySample
    newId := "a1" }

/-- An active connected account of `u1` at provider `p1`. -/
def activeAccount : ConnectedAccount :=
  { id := "a2"
    user_id := "u1"
    provider_id := "p1"
    encrypted_access_token := "blobA"
    encrypted_refresh_token := some "blobR"
    token_expires_at := some 1000
    refresh_token_expires_at := none
    external_account_id := "ext1"
    account_name := some "Alice"
    account_type := some "crypto"
    is_active := true
    last_sync_at := none
    sync_status := some "success"
    sync_error := none }

/-- A service state with one active account to revoke. -/
def revokeState : ServiceState :=
  { providers := [coinbaseCfg]
    pendingStates := []
    db := { providers := [coinbaseRow], accounts := [activeAccount] } }

/-- A decryption oracle that succeeds on every blob. -/
def decOk : String → Except String String := fun b => .ok ("plain:" ++ b)

/-- The row `activeAccount` becomes after local deactivation. -/
def deactivatedRow : ConnectedAccount :=
  { activeAccount with is_active := false, sync_status := some "disconnected" }

/-- A fresh service state with no pending authorizations and no
connected accounts. -/
def beginState : ServiceState :=
  { providers := [coinbaseCfg]
    pendingStates := []
    db := { providers := [coinbaseRow], accounts := [] } }

/-- The authorization URL `generateAuthUrl` builds from `beginState` for
state `st9`, verifier `ver` and challenge `chal`. -/
def authUrlSample : String :=
  "https://www.coinbase.com/oauth/authorize?client_id=cid&redirect_uri=https://app/cb&scope=wallet:user:read wallet:accounts:read wallet:transactions:read&state=st9&response_type=code&code_challenge=chal&code_challenge_method=S256"

/-- The state `generateAuthUrl` leaves behind when called on `beginState`
at time 0 with state `st9`: one pending entry expiring at `stateTtlMs`. -/
def expiredPendingState : ServiceState :=
  { providers := [coinbaseCfg]
    pendingStates :=
      [{ key := "st9"
         value :=
           { userId := "u1", providerId := "p1", state := "st9",
             codeVerifier := "ver", redirectUri := "https://app/cb" }
         expiresAt := stateTtlMs }]
    db := { providers := [coinbaseRow], accounts := [] } }

/-! ## Helper lemmas -/

/-- `handleCallbackAfterConsume` never touches `pendingStates`. -/
theorem afterConsume_pendingStates (o : FinancialOAuthService.CallbackOracles)
    (now : Nat) (uri : String) (st : OAuthState) (s : ServiceState) :
    ((FinancialOAuthService.handleCallbackAfterConsume o now uri st s).2).pendingStates =
      s.pendingStates := by
  unfold FinancialOAuthService.handleCallbackAfterConsume
  repeat first
  | rfl
  | split

/-- After a `handleCallback` that found its state, the entry is removed
from `pendingStates` and nothing with that key remains. -/
theorem handleCallback_pendingStates_of_found
    (o : FinancialOAuthService.CallbackOracles) (now : Nat)
    (code st uri : String) (s : ServiceState) (e : PendingEntry)
    (hfound : (firePendingTimers now s.pendingStates).find?
      (fun x => x.key == st) = some e) :
    ((FinancialOAuthService.handleCallback o now code st uri s).2).pendingStates =
      (firePendingTimers now s.pendingStates).filter (fun x => !(x.key == st)) := by
  simp only [FinancialOAuthService.handleCallback, hfound]
  exact afterConsume_pendingStates ..

/-- Once one `handleCallback` has consumed a state, any further
`handleCallback` with the same state fails the state check. -/
theorem handleCallback_consumed_invalid
    (o1 o2 : FinancialOAuthService.CallbackOracles) (now1 now2 : Nat)
    (code1 code2 uri1 uri2 st : String) (s : ServiceState) (e : PendingEntry)
    (hfound : (firePendingTimers now1 s.pendingStates).find?
      (fun x => x.key == st) = some e) :
    (FinancialOAuthService.handleCallback o2 now2 code2 st uri2
        (FinancialOAuthService.handleCallback o1 now1 code1 st uri1 s).2).1 =
      FinancialOAuthService.cbFailure "Invalid or expired state parameter" := by
  have h1 := handleCallback_pendingStates_of_found o1 now1 code1 st uri1 s e hfound
  set s1 := (FinancialOAuthService.handleCallback o1 now1 code1 st uri1 s).2 with hs1
  have hnone :
      (firePendingTimers now2 s1.pendingStates).find? (fun x => x.key == st) = none := by
    rw [List.find?_eq_none]
    intro x hx
    rw [firePendingTimers, List.mem_filter] at hx
    rw [h1, List.mem_filter] at hx
    simpa using hx.1.2
  simp only [FinancialOAuthService.handleCallback, hnone]

/-- A `handleCallback` whose pending entry records a different redirect
URI fails with the mismatch error and leaves the durable store untouched. -/
theorem handleCallback_mismatch (o : FinancialOAuthService.CallbackOracles)
    (now : Nat) (code st uri : String) (s : ServiceState) (e : PendingEntry)
    (hfound : (firePendingTimers now s.pendingStates).find?
      (fun x => x.key == st) = some e)
    (hmis : e.value.redirectUri ≠ uri) :
    (FinancialOAuthService.handleCallback o now code st uri s).1 =
      FinancialOAuthService.cbFailure "Redirect URI mismatch" ∧
    ((FinancialOAuthService.handleCallback o now code st uri s).2).db = s.db := by
  simp only [FinancialOAuthService.handleCallback, hfound,
    FinancialOAuthService.handleCallbackAfterConsume, if_pos hmis]
  exact ⟨trivial, trivial⟩

/-- `decrypt` errors on every input: each of its branches throws. -/
theorem decrypt_isError (env : Option String) (d : EncryptedData) :
    ∃ e, TokenEncryption.decrypt env d = .error e := by
  unfold TokenEncryption.decrypt
  split
  · exact ⟨_, rfl⟩
  · cases h : getEncryptionKey env with
    | error e => simp [h]
    | ok k => simp [h]

/-- The program's single-blob decryption errors on every blob. -/
theorem decOneOf_isError (env : Option String)
    (parse : String → Except String EncryptedData) (blob : String) :
    ∃ e, decOneOf env parse blob = .error e := by
  unfold decOneOf
  cases h : parse blob with
  | error e => simp [h]
  | ok d =>
    obtain ⟨e, he⟩ := decrypt_isError env d
    simp [h, he]

/-- `decryptTokens` with the program's decryption errors on every pair of
stored blobs. -/
theorem decryptTokens_decOneOf_isError (env : Option String)
    (parse : String → Except String EncryptedData) (encA : String)
    (encR : Option String) :
    ∃ e, TokenEncryption.decryptTokens (decOneOf env parse) encA encR =
      .error e := by
  obtain ⟨e, he⟩ := decOneOf_isError env parse encA
  unfold TokenEncryption.decryptTokens
  simp [he]

/-- `getAccountWithTokens` with the program's decryption throws for every
existing ownership-scoped account. -/
theorem getAccountWithTokens_decOneOf_error (env : Option String)
    (parse : String → Except String EncryptedData) (db : DB)
    (id userId : String) (a : ConnectedAccount)
    (hacct : FinancialConnectedAccountRepository.findByIdAndUserId db id userId =
      some a) :
    ∃ e, FinancialConnectedAccountRepository.getAccountWithTokens
        (decOneOf env parse) db id userId = .error e := by
  obtain ⟨e, he⟩ := decryptTokens_decOneOf_isError env parse
    a.encrypted_access_token a.encrypted_refresh_token
  unfold FinancialConnectedAccountRepository.getAccountWithTokens
  simp [hacct, he]

/-- With a configured 64-hex-character key, `encrypt` of any non-empty
plaintext throws the cipher `TypeError`. -/
theorem encrypt_cipher_error (k plaintext : String)
    (hkey : k.length = 64) (hpt : plaintext ≠ "") :
    TokenEncryption.encrypt (some k) plaintext =
      .error ("Encryption failed: " ++ createCipherGCMError) := by
  simp [TokenEncryption.encrypt, getEncryptionKey, hkey, hpt]

/-- With a configured 64-hex-character key, `encryptTokens` of any
non-empty access token throws the cipher `TypeError` before returning
any blob. -/
theorem encryptTokens_cipher_error (k access : String) (refresh : Option String)
    (hkey : k.length = 64) (hacc : access ≠ "") :
    TokenEncryption.encryptTokens (some k) access refresh =
      .error ("Encryption failed: " ++ createCipherGCMError) := by
  unfold TokenEncryption.encryptTokens
  simp [encrypt_cipher_error k access hkey hacc]

/-- `deactivateByIdAndUserId` leaves every ownership-matching row
inactive and disconnected. -/
theorem deactivate_sets_inactive (db : DB) (id userId : String) :
    ∀ x ∈ (FinancialConnectedAccountRepository.deactivateByIdAndUserId db id
        userId).2.accounts,
      x.id = id → x.user_id = userId →
        x.is_active = false ∧ x.sync_status = some "disconnected" := by
  intro x hx hid huser
  simp only [FinancialConnectedAccountRepository.deactivateByIdAndUserId,
    List.mem_map] at hx
  obtain ⟨a, _, hax⟩ := hx
  by_cases hcond : (a.id == id && a.user_id == userId) = true
  · rw [if_pos hcond] at hax
    subst hax
    exact ⟨rfl, rfl⟩
  · rw [if_neg hcond] at hax
    subst hax
    simp [hid, huser] at hcond

/-! ## Claims -/

/-- C1: the claim asserts that a `handleCallback` for a
`(user, provider, external account id)` triple that already has a
ConnectedAccount record (even an inactive one) updates and reactivates
the existing record. The code does not — on a reconnect it fails before
any store write: `create` first calls `encryptTokens`, which throws the
cipher `TypeError` (`crypto.createCipherGCM` does not exist in
`node:crypto`), so the callback returns `success: false` with that
message and the existing record stays inactive and un-updated. No upsert
or reactivation exists anywhere in the code (`findByExternalId` is never
called), and even under a working cipher the plain `INSERT` would hit the
schema's `UNIQUE(user_id, provider_id, external_account_id)` constraint
rather than reactivate. This theorem evaluates the model at the failing
input: the callback fails and the store still holds exactly the old
inactive record. -/
theorem C1_reconnect_fails_instead_of_upserting :
    (FinancialOAuthService.handleCallback reconnectOracles 0 "abc" "st1"
        "https://app/cb" reconnectState).1 =
      FinancialOAuthService.cbFailure
        "Encryption failed: crypto.createCipherGCM is not a function" ∧
    ((FinancialOAuthService.handleCallback reconnectOracles 0 "abc" "st1"
        "https://app/cb" reconnectState).2).db.accounts = [inactiveAccount] :=
  ⟨rfl, rfl⟩

/-- C2: the claim asserts `decrypt (encrypt s) = s` for every non-empty
string under a valid 64-hex-character key. The code cannot satisfy it:
`encrypt` calls `crypto.createCipherGCM`, which does not exist in
`node:crypto`, so every call throws `Encryption failed:
crypto.createCipherGCM is not a function` (`decrypt`'s
`createDecipherGCM` likewise), and the round trip never returns a
plaintext. The round-trip property is the evident intent — the source's
own `validateConfiguration` self-test asserts it — and the wrong API
name a slip. Evaluated at the failing input `"tok"` with a valid key. -/
theorem C2_roundtrip_impossible :
    TokenEncryption.encrypt (some keySample) "tok" =
      .error "Encryption failed: crypto.createCipherGCM is not a function" ∧
    (TokenEncryption.encrypt (some keySample) "tok").bind
        (TokenEncryption.decrypt (some keySample)) =
      .error "Encryption failed: crypto.createCipherGCM is not a function" :=
  ⟨rfl, rfl⟩

/-- C3 counterexample: the claim says the boolean returned by
`revokeAccess` equals whether the remote revoke call succeeded. At this
concrete input the provider would acknowledge the revoke with HTTP 200
(a success), yet `revokeAccess` returns `false`: token decryption throws
before the revoke request is ever made (`crypto.createDecipherGCM` does
not exist), the `catch` deactivates the account locally, and `false` is
returned. -/
theorem C3_counterexample :
    (FinancialOAuthService.revokeAccess decReal
        (FetchOutcome.response true 200 "ok") "a2" "u1" revokeState).1 ≠
      remoteRevokeSucceeded (FetchOutcome.response true 200 "ok") := by
  decide

/-- C3 (amended): for every `revokeAccess` on an existing account owned
by `userId` (whatever its provider configures), the call returns `false`
and performs no remote revoke request at all, regardless of how the
provider would have responded: decryption of the stored tokens always
throws first (`crypto.createDecipherGCM` does not exist), the `catch`
performs the local deactivation, and `false` is returned — so the
returned boolean never reflects a remote revoke outcome. -/
theorem C3_revoke_returns_false (env : Option String)
    (parse : String → Except String EncryptedData) (outcome : FetchOutcome)
    (accountId userId : String) (s : ServiceState) (a : ConnectedAccount)
    (hacct : FinancialConnectedAccountRepository.findByIdAndUserId s.db accountId
      userId = some a) :
    (FinancialOAuthService.revokeAccess (decOneOf env parse) outcome accountId
        userId s).1 = false ∧
    (FinancialOAuthService.revokeAccess (decOneOf env parse) outcome accountId
        userId s).2.2 = [] := by
  obtain ⟨e, he⟩ := getAccountWithTokens_decOneOf_error env parse s.db accountId
    userId a hacct
  rw [FinancialOAuthService.revokeAccess.eq_def]
  simp [he]

/-- Witness for C3 (amended): with a would-be HTTP 400 revoke response,
the call returns `false` having made no request. -/
theorem C3_witness :
    (FinancialOAuthService.revokeAccess decReal
        (FetchOutcome.response false 400 "bad_request") "a2" "u1" revokeState).1 =
      false ∧
    (FinancialOAuthService.revokeAccess decReal
        (FetchOutcome.response false 400 "bad_request") "a2" "u1"
        revokeState).2.2 = [] :=
  C3_revoke_returns_false (some keySample) parseSample
    (FetchOutcome.response false 400 "bad_request") "a2" "u1" revokeState
    activeAccount rfl

/-- C4: for every `revokeAccess` on an existing account owned by
`userId`, the account's `is_active` flag is `false` afterwards (with
`sync_status` `disconnected`), for every would-be remote revoke outcome —
an error response, a throw/timeout — and every `ENCRYPTION_KEY` and
`JSON.parse` behavior: in the program, token decryption always throws
(`crypto.createDecipherGCM` does not exist) and the `catch` deactivates
the account before the provider is ever contacted, so a remote failure
can never prevent local deactivation. -/
theorem C4_revoke_always_deactivates (env : Option String)
    (parse : String → Except String EncryptedData) (outcome : FetchOutcome)
    (accountId userId : String) (s : ServiceState) (a : ConnectedAccount)
    (hacct : FinancialConnectedAccountRepository.findByIdAndUserId s.db accountId
      userId = some a) :
    ∀ x ∈ (FinancialOAuthService.revokeAccess (decOneOf env parse) outcome
        accountId userId s).2.1.accounts,
      x.id = accountId → x.user_id = userId →
        x.is_active = false ∧ x.sync_status = some "disconnected" := by
  intro x hx hid huser
  obtain ⟨e, he⟩ := getAccountWithTokens_decOneOf_error env parse s.db accountId
    userId a hacct
  rw [FinancialOAuthService.revokeAccess.eq_def] at hx
  simp only [he] at hx
  exact deactivate_sets_inactive s.db accountId userId x hx hid huser

/-- Witness for C4: a revoke whose remote call would time out (throw)
still deactivates the account row. -/
theorem C4_witness :
    deactivatedRow.is_active = false ∧ deactivatedRow.sync_status = some "disconnected" :=
  C4_revoke_always_deactivates (some keySample) parseSample
    (FetchOutcome.throws "timeout") "a2" "u1" revokeState activeAccount rfl
    deactivatedRow (by decide) rfl rfl

/-- C5: a state value can be consumed at most once. After one
`handleCallback` has consumed state `st` (which was present in the
pending map when that call ran), a second `handleCallback` with the same
code/state pair fails with the invalid-state error — the same outcome as
an unknown state — for every provider-response oracle `o2` and any later
time. -/
theorem C5_state_consumed_once (o1 o2 : FinancialOAuthService.CallbackOracles)
    (now1 now2 : Nat) (code1 code2 uri1 uri2 st : String) (s : ServiceState)
    (e : PendingEntry)
    (hfound : (firePendingTimers now1 s.pendingStates).find?
      (fun x => x.key == st) = some e) :
    (FinancialOAuthService.handleCallback o2 now2 code2 st uri2
        (FinancialOAuthService.handleCallback o1 now1 code1 st uri1 s).2).1 =
      FinancialOAuthService.cbFailure "Invalid or expired state parameter" :=
  handleCallback_consumed_invalid o1 o2 now1 now2 code1 code2 uri1 uri2 st s e hfound

/-- Witness for C5: replaying the reconnect callback. -/
theorem C5_witness :
    (FinancialOAuthService.handleCallback reconnectOracles 5 "abc" "st1"
        "https://app/cb"
        (FinancialOAuthService.handleCallback reconnectOracles 0 "abc" "st1"
          "https://app/cb" reconnectState).2).1 =
      FinancialOAuthService.cbFailure "Invalid or expired state parameter" :=
  C5_state_consumed_once reconnectOracles reconnectOracles 0 5 "abc" "abc"
    "https://app/cb" "https://app/cb" "st1" reconnectState
    { key := "st1"
      value :=
        { userId := "u1", providerId := "p1", state := "st1",
          codeVerifier := "ver", redirectUri := "https://app/cb" }
      expiresAt := stateTtlMs }
    rfl

/-- C6: a `handleCallback` whose redirect URI differs from the one
recorded at `begin` time fails with the redirect-mismatch error, and the
durable store is unchanged — no ConnectedAccount is created. -/
theorem C6_redirect_mismatch_no_write (o : FinancialOAuthService.CallbackOracles)
    (now : Nat) (code st uri : String) (s : ServiceState) (e : PendingEntry)
    (hfound : (firePendingTimers now s.pendingStates).find?
      (fun x => x.key == st) = some e)
    (hmis : e.value.redirectUri ≠ uri) :
    (FinancialOAuthService.handleCallback o now code st uri s).1 =
      FinancialOAuthService.cbFailure "Redirect URI mismatch" ∧
    ((FinancialOAuthService.handleCallback o now code st uri s).2).db = s.db :=
  handleCallback_mismatch o now code st uri s e hfound hmis

/-- Witness for C6: the reconnect callback arriving with a different
redirect URI. -/
theorem C6_witness :
    (FinancialOAuthService.handleCallback reconnectOracles 0 "abc" "st1"
        "https://evil/cb" reconnectState).1 =
      FinancialOAuthService.cbFailure "Redirect URI mismatch" ∧
    ((FinancialOAuthService.handleCallback reconnectOracles 0 "abc" "st1"
        "https://evil/cb" reconnectState).2).db = reconnectState.db :=
  C6_redirect_mismatch_no_write reconnectOracles 0 "abc" "st1" "https://evil/cb"
    reconnectState
    { key := "st1"
      value :=
        { userId := "u1", providerId := "p1", state := "st1",
          codeVerifier := "ver", redirectUri := "https://app/cb" }
      expiresAt := stateTtlMs }
    rfl (by decide)

/-- C7: for an account that exists, is owned by the calling user, and has
no stored refresh token (`encrypted_refresh_token` is null),
`refreshToken` returns `false` and the trace of network calls is empty —
for every decryption oracle (including the program's always-throwing
one, whose `catch` also returns `false` without a fetch), every
configured encryption key, and every would-be provider response. -/
theorem C7_no_refresh_token_no_network (decOne : String → Except String String)
    (env : Option String) (refreshFetch : ExchangeOutcome) (now : Nat)
    (accountId userId : String) (s : ServiceState) (a : ConnectedAccount)
    (hacct : FinancialConnectedAccountRepository.findByIdAndUserId s.db accountId
      userId = some a)
    (hnorefresh : a.encrypted_refresh_token = none) :
    (FinancialOAuthService.refreshToken decOne env refreshFetch now accountId
        userId s).1 = false ∧
    (FinancialOAuthService.refreshToken decOne env refreshFetch now accountId
        userId s).2.2 = [] := by
  rw [FinancialOAuthService.refreshToken.eq_def]
  simp only [FinancialConnectedAccountRepository.getAccountWithTokens, hacct,
    hnorefresh]
  cases hdec : decOne a.encrypted_access_token with
  | error e =>
    simp [TokenEncryption.decryptTokens, hdec]
  | ok tok =>
    simp [TokenEncryption.decryptTokens, hdec]

/-- Witness for C7 at a concrete account without a refresh token. -/
theorem C7_witness :
    (FinancialOAuthService.refreshToken decOk reconnectOracles.encryptionKey
        (ExchangeOutcome.success
          { access_token := "tokA3", refresh_token := none, expires_in := some 60 })
        0 "a0" "u1" reconnectState).1 = false ∧
    (FinancialOAuthService.refreshToken decOk reconnectOracles.encryptionKey
        (ExchangeOutcome.success
          { access_token := "tokA3", refresh_token := none, expires_in := some 60 })
        0 "a0" "u1" reconnectState).2.2 = [] :=
  C7_no_refresh_token_no_network decOk reconnectOracles.encryptionKey
    (ExchangeOutcome.success
      { access_token := "tokA3", refresh_token := none, expires_in := some 60 })
    0 "a0" "u1" reconnectState inactiveAccount rfl rfl

/-- C8: a state issued by `generateAuthUrl` and not consumed within 10
minutes becomes unusable: any `handleCallback` with that state at a time
at least `stateTtlMs` after issuance (by which point the scheduled
deletion has fired) finds it absent and fails with the invalid-state
error — for every oracle, code and redirect URI. -/
theorem C8_unconsumed_state_expires (o : FinancialOAuthService.CallbackOracles)
    (now0 now1 : Nat) (st cv cc userId pname uri code uri2 : String)
    (s : ServiceState) (res : String × String) (s1 : ServiceState)
    (hgen : FinancialOAuthService.generateAuthUrl now0 st cv cc userId pname uri
      s = .ok (res, s1))
    (hlate : now0 + stateTtlMs ≤ now1) :
    (FinancialOAuthService.handleCallback o now1 code st uri2 s1).1 =
      FinancialOAuthService.cbFailure "Invalid or expired state parameter" := by
  rw [FinancialOAuthService.generateAuthUrl.eq_def] at hgen
  cases hp : s.providers.find? (fun p => p.name == pname) with
  | none => simp [hp] at hgen
  | some provider =>
    cases hdbp : FinancialProviderRepository.findByName s.db pname with
    | none => simp [hp, hdbp] at hgen
    | some dbProvider =>
      simp only [hp, hdbp, Except.ok.injEq, Prod.mk.injEq] at hgen
      obtain ⟨-, hs1⟩ := hgen
      have hnone : (firePendingTimers now1 s1.pendingStates).find?
          (fun x => x.key == st) = none := by
        rw [List.find?_eq_none]
        intro x hx
        rw [firePendingTimers, List.mem_filter] at hx
        obtain ⟨hmem, hlt⟩ := hx
        rw [← hs1] at hmem
        simp only [List.mem_append, List.mem_filter, List.mem_singleton] at hmem
        rcases hmem with hA | hE
        · simpa using hA.2
        · subst hE
          simp only [decide_eq_true_eq] at hlt
          omega
      simp only [FinancialOAuthService.handleCallback, hnone]

/-- Witness for C8: the pending entry created at time 0 is gone at time
`stateTtlMs`. -/
theorem C8_witness :
    (FinancialOAuthService.handleCallback reconnectOracles stateTtlMs "abc" "st9"
        "https://app/cb" expiredPendingState).1 =
      FinancialOAuthService.cbFailure "Invalid or expired state parameter" :=
  C8_unconsumed_state_expires reconnectOracles 0 stateTtlMs "st9" "ver" "chal"
    "u1" "coinbase" "https://app/cb" "abc" "https://app/cb" beginState
    (authUrlSample, "st9") expiredPendingState rfl (by decide)

/-- C9 counterexample: the claim says an update supplying a new access
token and no refresh token overwrites the stored encrypted refresh token
with null. At this concrete input the update instead throws inside
`encryptTokens` (`crypto.createCipherGCM` does not exist) before the SQL
`UPDATE` runs: the call returns the encryption error, no row is written,
and the stored refresh blob survives unchanged. -/
theorem C9_counterexample :
    FinancialConnectedAccountRepository.update (some keySample) revokeState.db "a2"
        { accessToken := some "tokA9" } =
      .error "Encryption failed: crypto.createCipherGCM is not a function" ∧
    activeAccount.encrypted_refresh_token = some "blobR" :=
  ⟨rfl, rfl⟩

/-- C9 (amended): every Connected-Account Store update (`update` or
`updateByIdAndUserId`) supplying a new (truthy) access token — with or
without an accompanying refresh token — throws inside `encryptTokens`
before its SQL statement runs (under a configured 64-hex-character key,
with the `crypto.createCipherGCM` `TypeError`), so no column is ever
overwritten: in particular the stored encrypted refresh token is never
erased, because the write that would null it is never reached. -/
theorem C9_update_throws_before_write (k : String) (db : DB) (id userId : String)
    (d : UpdateConnectedAccountData) (tok : String)
    (hkey : k.length = 64) (htok : d.accessToken = some tok) (hne : tok ≠ "") :
    FinancialConnectedAccountRepository.update (some k) db id d =
      .error ("Encryption failed: " ++ createCipherGCMError) ∧
    FinancialConnectedAccountRepository.updateByIdAndUserId (some k) db id userId
        d =
      .error ("Encryption failed: " ++ createCipherGCMError) := by
  have henc := encryptTokens_cipher_error k tok d.refreshToken hkey hne
  constructor
  · rw [FinancialConnectedAccountRepository.update.eq_def]
    simp [htok, hne, henc]
  · rw [FinancialConnectedAccountRepository.updateByIdAndUserId.eq_def]
    simp [htok, hne, henc]

/-- Witness for C9 (amended): both update flavors throw at a concrete
account, key and token pair. -/
theorem C9_witness :
    FinancialConnectedAccountRepository.update (some keySample) revokeState.db "a2"
        { accessToken := some "tokA9", refreshToken := some "tokR9" } =
      .error ("Encryption failed: " ++ createCipherGCMError) ∧
    FinancialConnectedAccountRepository.updateByIdAndUserId (some keySample)
        revokeState.db "a2" "u1"
        { accessToken := some "tokA9", refreshToken := some "tokR9" } =
      .error ("Encryption failed: " ++ createCipherGCMError) :=
  C9_update_throws_before_write keySample revokeState.db "a2" "u1"
    { accessToken := some "tokA9", refreshToken := some "tokR9" } "tokA9"
    (by decide) rfl (by decide)

/-- C10: `handleCallback` deletes the pending authorization before
comparing redirect URIs, so one callback with a mismatched redirect URI
permanently consumes the state: it fails with the mismatch error, and a
subsequent callback with the correct redirect URI for the same state
fails with the invalid-state error rather than succeeding. -/
theorem C10_mismatch_still_consumes (o1 o2 : FinancialOAuthService.CallbackOracles)
    (now1 now2 : Nat) (code1 code2 st uri1 : String) (s : ServiceState)
    (e : PendingEntry)
    (hfound : (firePendingTimers now1 s.pendingStates).find?
      (fun x => x.key == st) = some e)
    (hmis : e.value.redirectUri ≠ uri1) :
    (FinancialOAuthService.handleCallback o1 now1 code1 st uri1 s).1 =
      FinancialOAuthService.cbFailure "Redirect URI mismatch" ∧
    (FinancialOAuthService.handleCallback o2 now2 code2 st e.value.redirectUri
        (FinancialOAuthService.handleCallback o1 now1 code1 st uri1 s).2).1 =
      FinancialOAuthService.cbFailure "Invalid or expired state parameter" :=
  ⟨(handleCallback_mismatch o1 now1 code1 st uri1 s e hfound hmis).1,
    handleCallback_consumed_invalid o1 o2 now1 now2 code1 code2 uri1
      e.value.redirectUri st s e hfound⟩

/-- Witness for C10: a mismatched callback for `st1` followed by a
correctly addressed one. -/
theorem C10_witness :
    (FinancialOAuthService.handleCallback reconnectOracles 0 "abc" "st1"
        "https://evil/cb" reconnectState).1 =
      FinancialOAuthService.cbFailure "Redirect URI mismatch" ∧
    (FinancialOAuthService.handleCallback reconnectOracles 5 "abc" "st1"
        "https://app/cb"
        (FinancialOAuthService.handleCallback reconnectOracles 0 "abc" "st1"
          "https://evil/cb" reconnectState).2).1 =
      FinancialOAuthService.cbFailure "Invalid or expired state parameter" :=
  C10_mismatch_still_consumes reconnectOracles reconnectOracles 0 5 "abc" "abc"
    "st1" "https://evil/cb" reconnectState
    { key := "st1"
      value :=
        { userId := "u1", providerId := "p1", state := "st1",
          codeVerifier := "ver", redirectUri := "https://app/cb" }
      expiresAt := stateTtlMs }
    rfl (by decide)

end Hyperbaric
